import Mathlib

/-!
Shallow embedding of the Reelgood scraper (src/reelgood_scraper.py and
src/app.py).  Pure string/list manipulations are translated directly;
browser interaction is modelled by explicit page/world state records whose
fields say what the DOM queries would return and which step, if any, of a
sequence of fallible browser calls raises an exception.
-/

namespace RG

/-- Python str.strip / JS String.trim on a char list: drop whitespace from
both ends.  Implemented structurally so that concrete instances reduce
inside the kernel. -/
def stripChars (l : List Char) : List Char :=
  ((l.dropWhile Char.isWhitespace).reverse.dropWhile Char.isWhitespace).reverse

/-- Python str.strip / JS String.trim on a string. -/
def pyStrip (s : String) : String :=
  ⟨stripChars s.data⟩

/-- Lexicographic comparison of char lists by code point, the order Python
sorted uses on strings.  Implemented structurally so that concrete
instances reduce inside the kernel. -/
def lexLe : List Char → List Char → Bool
  | [], _ => true
  | _ :: _, [] => false
  | a :: as, b :: bs => if a < b then true else if a = b then lexLe as bs else false

/-- Lexicographic comparison of strings by code point. -/
def strLe (a b : String) : Bool :=
  lexLe a.data b.data

/-- Substring test on char lists, modelling the JS String.includes and the
Python "in" operator on strings. -/
def listContainsSub (pat : List Char) : List Char → Bool
  | [] => pat.isEmpty
  | c :: rest => pat.isPrefixOf (c :: rest) || listContainsSub pat rest

/-- Substring test on strings: strContainsSub s pat is true when pat occurs
contiguously in s. -/
def strContainsSub (s pat : String) : Bool :=
  listContainsSub pat.data s.data

/-- The chars before the first newline. -/
def takeUntilNl : List Char → List Char
  | [] => []
  | c :: rest => if c = '\n' then [] else c :: takeUntilNl rest

/-- Python text.split("\n")[0]: the first line of a string. -/
def firstLine (s : String) : String :=
  ⟨takeUntilNl s.data⟩

/-- REGIONS from reelgood_scraper.py, an association list keeping the
insertion order of the Python dict (Python dicts preserve it). -/
def REGIONS : List (String × String) :=
  [("all", "All Regions"), ("us", "United States"), ("uk", "United Kingdom"),
   ("ca", "Canada"), ("au", "Australia"), ("nz", "New Zealand")]

/-- The display names accepted by get_current_region (the list literal at
line 69 of reelgood_scraper.py). -/
def validRegionNames : List String :=
  ["Canada", "United States", "United Kingdom", "Australia", "New Zealand",
   "All Regions"]

/-- Page state as seen by the region-dropdown code.  spanText is the inner
text of the region span when that selector matches; dropdownText is the
inner text of the dropdown div when that selector matches; getRegionRaises
says the queries inside get_current_region raise; menuHasOption says
whether the evaluate call in select_region finds a clickable option for a
given display name; failStep numbers the fallible browser call inside the
try block of select_region that raises (none = no exception):
0 dropdown.click, 1 first wait, 2 evaluate, 3 mouse.click, 4 second wait,
5 keyboard escape.  The model assumes the page text fields only change
when the option click lands, which sets the displayed region to the
clicked display name. -/
structure Page where
  spanText : Option String
  dropdownText : Option String
  getRegionRaises : Bool
  menuHasOption : String → Bool
  failStep : Option Nat

/-- The span-based primary read in get_current_region: the trimmed span
text when it is nonempty and one of the known display names. -/
def spanRead (p : Page) : Option String :=
  match p.spanText with
  | some t =>
    if pyStrip t ≠ "" ∧ pyStrip t ∈ validRegionNames then some (pyStrip t) else none
  | none => none

/-- get_current_region from reelgood_scraper.py: primary span read, then
the first line of the dropdown div, then "Unknown"; its try/except makes
it total, yielding "Unknown" when its own queries raise. -/
def get_current_region (p : Page) : String :=
  if p.getRegionRaises then "Unknown"
  else
    match spanRead p with
    | some t => t
    | none =>
      match p.dropdownText with
      | some t => firstLine (pyStrip t)
      | none => "Unknown"

/-- select_region from reelgood_scraper.py, returning the reported region
together with the page state it leaves behind.  The branches mirror the
source: already selected, dropdown missing, exception before the option
click (handler re-reads the unchanged page), option found and clicked
(page region becomes the target; an exception in the final wait makes the
handler re-read the updated page), option not found (escape pressed,
previous region returned; an exception while pressing escape lands in the
handler which returns the same value). -/
def select_region (p : Page) (target : String) : String × Page :=
  if get_current_region p = target then (target, p)
  else if p.dropdownText = none then (get_current_region p, p)
  else if p.failStep = some 0 ∨ p.failStep = some 1 ∨ p.failStep = some 2 then
    (get_current_region p, p)
  else if p.menuHasOption target then
    if p.failStep = some 3 then (get_current_region p, p)
    else if p.failStep = some 4 then
      (get_current_region { p with spanText := some target },
       { p with spanText := some target })
    else (target, { p with spanText := some target })
  else (get_current_region p, p)

/-- A DOM element as the extraction script sees it: index of the parent
element (none for a root), the text content of the first element child
(none when there is no element child), the class attribute (the DOM
className string, empty when absent), and the trimmed-source text content
of the previous element sibling (none when there is none). -/
structure Element where
  parent : Option Nat
  firstChildText : Option String
  className : String
  prevSiblingText : Option String

/-- A document: elements addressed by index. -/
structure Dom where
  elems : List Element

/-- el.parentElement. -/
def getParent (dom : Dom) (el : Element) : Option Element :=
  el.parent.bind fun i => dom.elems[i]?

/-- The four category labels from the extraction script. -/
def labels : List String := ["Free", "Sub", "Rent", "Buy"]

/-- The class-attribute check of the extraction script: substring tests
for "free", "sub", "rent", "buy" in that priority order, skipped when the
className is empty (falsy in JS). -/
def classCategory (c : String) : Option String :=
  if c = "" then none
  else if strContainsSub c "free" then some "Free"
  else if strContainsSub c "sub" then some "Sub"
  else if strContainsSub c "rent" then some "Rent"
  else if strContainsSub c "buy" then some "Buy"
  else none

/-- The first-element-child header check of the extraction script: the
trimmed text of the first element child when it is exactly a label. -/
def headerCategory (p : Element) : Option String :=
  match p.firstChildText with
  | some t => if pyStrip t ∈ labels then some (pyStrip t) else none
  | none => none

/-- The ancestor walk of the extraction script: starting from the image,
move to the parent up to fuel times; at each ancestor adopt the header
category, else the class category, else keep walking. -/
def ancestorWalk (dom : Dom) : Element → Nat → Option String
  | _, 0 => none
  | el, fuel + 1 =>
    match getParent dom el with
    | none => none
    | some p =>
      match headerCategory p with
      | some c => some c
      | none =>
        match classCategory p.className with
        | some c => some c
        | none => ancestorWalk dom p fuel

/-- The sibling fallback of the extraction script: starting from a node,
up to fuel times check whether the previous element sibling has a label as
trimmed text, else move to the parent. -/
def siblingWalk (dom : Dom) : Option Element → Nat → Option String
  | none, _ => none
  | some _, 0 => none
  | some s, fuel + 1 =>
    match s.prevSiblingText with
    | some t =>
      if pyStrip t ∈ labels then some (pyStrip t)
      else siblingWalk dom (getParent dom s) fuel
    | none => siblingWalk dom (getParent dom s) fuel

/-- Category resolution for one logo image, as in the extraction script:
ancestor walk with 15 levels, then sibling fallback with 5 levels starting
at the image parent, else "Unknown". -/
def resolveCategory (dom : Dom) (img : Element) : String :=
  match ancestorWalk dom img 15 with
  | some c => c
  | none =>
    match siblingWalk dom (getParent dom img) 5 with
    | some c => c
    | none => "Unknown"

/-- Modelled from the wording of the specification, for comparison with
resolveCategory: the list of up to fuel ancestors of an element, nearest
first. -/
def ancestors (dom : Dom) : Element → Nat → List Element
  | _, 0 => []
  | el, fuel + 1 =>
    match getParent dom el with
    | none => []
    | some p => p :: ancestors dom p fuel

/-- Modelled from the wording of the specification: the per-level check of
the ancestor walk, header first, class attribute second. -/
def levelCategory (p : Element) : Option String :=
  match headerCategory p with
  | some c => some c
  | none => classCategory p.className

/-- Modelled from the wording of the specification: a sibling-of-ancestor
whose trimmed text is exactly a label. -/
def prevSibCategory (s : Element) : Option String :=
  match s.prevSiblingText with
  | some t => if pyStrip t ∈ labels then some (pyStrip t) else none
  | none => none

/-- Modelled from the wording of the specification: first category found
over the first 15 ancestors, else first label among the previous siblings
of the first 5 ancestors, else "Unknown". -/
def resolveCategorySpec (dom : Dom) (img : Element) : String :=
  match (ancestors dom img 15).findSome? levelCategory with
  | some c => c
  | none =>
    match (ancestors dom img 5).findSome? prevSibCategory with
    | some c => c
    | none => "Unknown"

/-- The results array the extraction script builds: one (platform,
category) pair per service-logo image with a nonempty alt text.  A logo
candidate is its alt text together with the image element. -/
def platforms_data (dom : Dom) (logos : List (String × Element)) :
    List (String × String) :=
  logos.filterMap fun li =>
    if li.1 = "" then none
    else some (li.1, resolveCategory dom li.2)

/-- The two output lists of extract_platforms. -/
structure PlatformSet where
  subscription : List String
  free : List String

/-- Python sorted(list(set(l))): the distinct elements in ascending
order. -/
def sortedSet (l : List String) : List String :=
  List.insertionSort (fun a b => strLe a b = true) l.dedup

/-- The Python half of extract_platforms: the loop adding each item to the
subscription set when its category is "Sub", to the free set when it is
"Free", followed by sorted(list(...)) on both sets. -/
def classifyPlatforms (items : List (String × String)) : PlatformSet :=
  { subscription := sortedSet ((items.filter fun it => it.2 = "Sub").map Prod.fst),
    free := sortedSet ((items.filter fun it => it.2 = "Free").map Prod.fst) }

/-- extract_platforms from reelgood_scraper.py: resolve each candidate,
then classify. -/
def extract_platforms (dom : Dom) (logos : List (String × Element)) :
    PlatformSet :=
  classifyPlatforms (platforms_data dom logos)

/-- platform_count as computed by the orchestrators:
len(subscription) + len(free). -/
def platform_count (ps : PlatformSet) : Nat :=
  ps.subscription.length + ps.free.length

/-- The dict scrape_reelgood returns: either the success shape with title,
platforms, region, url and platform_count, or the error shape with the
single error message. -/
inductive ScrapeRet where
  | success (title : String) (platforms : PlatformSet) (region : String)
      (url : String) (count : Nat)
  | errorResult (msg : String)

/-- Environment of one scrape_reelgood call.  failAt numbers the fallible
browser call that raises (none = none raises):
0 chromium.launch, 1 new_context, 2 new_page, 3 apply_stealth_sync
(these run before the try block), 4 goto, 5 wait_for_selector h1,
6 wait 1500, 7 scroll evaluate, 8 wait 500, 9 logo-count evaluate,
10 platforms evaluate, 11 browser.close on the success path (these run
inside the try block).  failMsg is the message of that exception.
handlerCloseRaises says the browser.close call inside the except handler
raises, with message closeMsg.  page models the loaded page for the
region code; titleRaises / titleText model the h1 query; dom and logos
model the rendered content for extraction. -/
structure World where
  failAt : Option Nat
  failMsg : String
  closeMsg : String
  handlerCloseRaises : Bool
  page : Page
  titleRaises : Bool
  titleText : Option String
  dom : Dom
  logos : List (String × Element)

/-- The except handler of scrape_reelgood: browser.close then the error
dict; a close failure escapes as a new exception with the browser still
open. -/
def handlerOne (w : World) : Except String ScrapeRet × Bool :=
  if w.handlerCloseRaises then (Except.error w.closeMsg, false)
  else (Except.ok (ScrapeRet.errorResult ("Failed to scrape URL: " ++ w.failMsg)), true)

/-- The optional region-selection step of scrape_reelgood: only when a
region code is given and is a key of REGIONS is select_region invoked (its
returned string is discarded by the caller; only the page effect
remains). -/
def pageAfterSelect (p : Page) (region : Option String) : Page :=
  match region with
  | some r =>
    match List.lookup r REGIONS with
    | some name => (select_region p name).2
    | none => p
  | none => p

/-- The title extraction of the orchestrators: trimmed h1 text, with
"Unknown Title" when the element is absent or the query raises. -/
def titleRead (titleRaises : Bool) (titleText : Option String) : String :=
  if titleRaises then "Unknown Title"
  else
    match titleText with
    | some t => pyStrip t
    | none => "Unknown Title"

/-- Body of scrape_reelgood given the page state after the optional region
selection.  The result pairs the outcome (Except.error models an exception
escaping the function) with whether the browser resource is released on
that path; a launch failure leaves no browser to release. -/
def scrapeWith (w : World) (url : String) (page1 : Page) :
    Except String ScrapeRet × Bool :=
  if w.failAt = some 0 then (Except.error w.failMsg, true)
  else if w.failAt = some 1 ∨ w.failAt = some 2 ∨ w.failAt = some 3 then
    (Except.error w.failMsg, false)
  else if w.failAt = some 4 ∨ w.failAt = some 5 ∨ w.failAt = some 6 ∨
      w.failAt = some 7 ∨ w.failAt = some 8 then handlerOne w
  else if w.failAt = some 9 ∨ w.failAt = some 10 then handlerOne w
  else if w.failAt = some 11 then handlerOne w
  else
    (Except.ok (ScrapeRet.success (titleRead w.titleRaises w.titleText)
      (extract_platforms w.dom w.logos) (get_current_region page1) url
      (platform_count (extract_platforms w.dom w.logos))), true)

/-- scrape_reelgood from reelgood_scraper.py. -/
def scrape_reelgood (w : World) (url : String) (region : Option String) :
    Except String ScrapeRet × Bool :=
  scrapeWith w url (pageAfterSelect w.page region)

/-- One per-region entry of the scrape_all_regions results dict. -/
structure RegionResult where
  region : String
  platforms : PlatformSet
  platform_count : Nat

/-- The dict scrape_all_regions returns. -/
inductive AllRet where
  | success (title : String) (url : String)
      (regions : List (String × RegionResult))
  | errorResult (msg : String)

/-- Environment of one scrape_all_regions call.  failAt numbers the
fallible browser call that raises: 0 chromium.launch, 1 new_context,
2 new_page, 3 apply_stealth_sync (before the try block), 4 goto,
5 wait_for_selector h1, 6 wait 1500, 7 page.title, 8 scroll evaluate,
9 wait 500, 10 browser.close on the success path (inside the try block).
extractFail is the loop iteration whose extraction evaluate raises, also
with message failMsg.  content gives the rendered dom and logo candidates
as a function of the currently displayed region. -/
structure WorldAll where
  failAt : Option Nat
  failMsg : String
  closeMsg : String
  handlerCloseRaises : Bool
  page : Page
  titleRaises : Bool
  titleText : Option String
  content : String → Dom × List (String × Element)
  extractFail : Option Nat

/-- The except handler of scrape_all_regions, as handlerOne. -/
def handlerAll (w : WorldAll) : Except String AllRet × Bool :=
  if w.handlerCloseRaises then (Except.error w.closeMsg, false)
  else (Except.ok (AllRet.errorResult ("Failed to scrape URL: " ++ w.failMsg)), true)

/-- The region table without the synthetic "all" entry, in table order, as
built by scrape_all_regions. -/
def regions_to_scrape : List (String × String) :=
  REGIONS.filter fun kv => kv.1 != "all"

/-- The per-region loop of scrape_all_regions: select the region, extract
the platforms of the now-displayed page, and accumulate keyed by region
code in iteration order; none models an extraction exception aborting the
loop into the except handler. -/
def scrapeRegionsLoop (w : WorldAll) :
    Page → Nat → List (String × String) → Option (List (String × RegionResult))
  | _, _, [] => some []
  | p, i, (code, name) :: rest =>
    let p2 := (select_region p name).2
    if w.extractFail = some i then none
    else
      let c := w.content (get_current_region p2)
      let platforms := extract_platforms c.1 c.2
      match scrapeRegionsLoop w p2 (i + 1) rest with
      | some tail =>
        some ((code, { region := name, platforms := platforms,
                       platform_count := platform_count platforms }) :: tail)
      | none => none

/-- scrape_all_regions from reelgood_scraper.py.  The result pairs the
outcome with whether the browser resource is released on that path. -/
def scrape_all_regions (w : WorldAll) (url : String) :
    Except String AllRet × Bool :=
  if w.failAt = some 0 then (Except.error w.failMsg, true)
  else if w.failAt = some 1 ∨ w.failAt = some 2 ∨ w.failAt = some 3 then
    (Except.error w.failMsg, false)
  else if w.failAt = some 4 ∨ w.failAt = some 5 ∨ w.failAt = some 6 ∨
      w.failAt = some 7 ∨ w.failAt = some 8 ∨ w.failAt = some 9 then handlerAll w
  else
    match scrapeRegionsLoop w w.page 0 regions_to_scrape with
    | none => handlerAll w
    | some results =>
      if w.failAt = some 10 then handlerAll w
      else
        (Except.ok (AllRet.success (titleRead w.titleRaises w.titleText) url
          results), true)

/-- JSON body of a response of the /scrape route of app.py: either the
error envelope or the success payload (region formatting kept
structured). -/
inductive RespBody where
  | errBody (msg : String)
  | okBody (title : String) (url : String)
      (regions : List (String × RegionResult))

/-- The /scrape route handler of app.py: body is the url field of the
request JSON (none when absent); the result is the HTTP status, the
response body, and whether scrape_all_regions was invoked at all. -/
def scrape (body : Option String) (w : WorldAll) : Nat × RespBody × Bool :=
  if pyStrip (body.getD "") = "" then
    (400, RespBody.errBody "Please enter a URL", false)
  else if strContainsSub (pyStrip (body.getD "")) "reelgood.com" = false then
    (400, RespBody.errBody "Please enter a valid Reelgood URL", false)
  else
    match scrape_all_regions w (pyStrip (body.getD "")) with
    | (Except.error e, _) => (500, RespBody.errBody ("Scraping failed: " ++ e), true)
    | (Except.ok (AllRet.errorResult m), _) => (500, RespBody.errBody m, true)
    | (Except.ok (AllRet.success t u rs), _) => (200, RespBody.okBody t u rs, true)

/-! Concrete pages, documents and worlds used to instantiate theorems. -/

/-- A benign page: region span readable, dropdown present, no exception,
every option clickable. -/
def pageQuiet : Page :=
  { spanText := some "United States", dropdownText := some "United States",
    getRegionRaises := false, menuHasOption := fun _ => true, failStep := none }

/-- A page whose detected region is Canada. -/
def pageW : Page :=
  { spanText := some "Canada", dropdownText := some "Canada",
    getRegionRaises := false, menuHasOption := fun _ => true, failStep := none }

/-- A document with a Sub section (element 0) and a Free section
(element 1), each a category header container. -/
def cexDom : Dom :=
  ⟨[{ parent := none, firstChildText := some "Sub", className := "",
      prevSiblingText := none },
    { parent := none, firstChildText := some "Free", className := "",
      prevSiblingText := none }]⟩

/-- Two Netflix logo images, one inside the Sub section and one inside the
Free section of cexDom. -/
def cexLogos : List (String × Element) :=
  [("Netflix", { parent := some 0, firstChildText := none, className := "",
                 prevSiblingText := none }),
   ("Netflix", { parent := some 1, firstChildText := none, className := "",
                 prevSiblingText := none })]

/-- A world whose new_context call (before the try block) raises. -/
def escWorld : World :=
  { failAt := some 1, failMsg := "boom", closeMsg := "close-boom",
    handlerCloseRaises := false, page := pageQuiet, titleRaises := false,
    titleText := some "Title", dom := ⟨[]⟩, logos := [] }

/-- A world whose wait_for_selector call (inside the try block) raises. -/
def tryWorld : World :=
  { escWorld with failAt := some 5 }

/-- An all-regions world whose wait_for_selector call raises. -/
def allWorldFail : WorldAll :=
  { failAt := some 5, failMsg := "boom", closeMsg := "close-boom",
    handlerCloseRaises := false, page := pageQuiet, titleRaises := false,
    titleText := some "Title", content := fun _ => (⟨[]⟩, []),
    extractFail := none }

/-- An all-regions world whose third per-region extraction raises. -/
def allWorldX : WorldAll :=
  { allWorldFail with failAt := none, extractFail := some 2 }

/-- An all-regions world in which nothing raises and every page is empty
of service logos. -/
def allWorldOK : WorldAll :=
  { allWorldFail with failAt := none }

/-- The results mapping scrape_all_regions builds in allWorldOK. -/
def allResultsOK : List (String × RegionResult) :=
  [("us", { region := "United States", platforms := { subscription := [], free := [] },
            platform_count := 0 }),
   ("uk", { region := "United Kingdom", platforms := { subscription := [], free := [] },
            platform_count := 0 }),
   ("ca", { region := "Canada", platforms := { subscription := [], free := [] },
            platform_count := 0 }),
   ("au", { region := "Australia", platforms := { subscription := [], free := [] },
            platform_count := 0 }),
   ("nz", { region := "New Zealand", platforms := { subscription := [], free := [] },
            platform_count := 0 })]

/-! Order facts about the lexicographic comparison, and membership facts
about sortedSet, shared by the extraction theorems. -/

theorem lexLe_cons (x y : Char) (xs ys : List Char) :
    lexLe (x :: xs) (y :: ys) = true ↔ x < y ∨ (x = y ∧ lexLe xs ys = true) := by
  simp only [lexLe]
  split_ifs with h1 h2
  · simp [h1]
  · simp [h1, h2]
  · simp [h1, h2]

theorem lexLe_total_aux (a : List Char) : ∀ b, lexLe a b = true ∨ lexLe b a = true := by
  induction a with
  | nil => intro b; left; rfl
  | cons x xs ih =>
    intro b
    cases b with
    | nil => right; rfl
    | cons y ys =>
      rcases lt_trichotomy x y with h | h | h
      · left; rw [lexLe_cons]; exact Or.inl h
      · subst h
        rcases ih ys with h2 | h2
        · left; rw [lexLe_cons]; exact Or.inr ⟨rfl, h2⟩
        · right; rw [lexLe_cons]; exact Or.inr ⟨rfl, h2⟩
      · right; rw [lexLe_cons]; exact Or.inl h

theorem lexLe_trans_aux (a : List Char) :
    ∀ b c, lexLe a b = true → lexLe b c = true → lexLe a c = true := by
  induction a with
  | nil => intro b c _ _; rfl
  | cons x xs ih =>
    intro b c h1 h2
    cases b with
    | nil => simp [lexLe] at h1
    | cons y ys =>
      cases c with
      | nil => simp [lexLe] at h2
      | cons z zs =>
        rw [lexLe_cons] at h1 h2 ⊢
        rcases h1 with h1 | ⟨h1e, h1r⟩
        · rcases h2 with h2 | ⟨h2e, h2r⟩
          · exact Or.inl (lt_trans h1 h2)
          · exact Or.inl (lt_of_lt_of_eq h1 h2e)
        · rcases h2 with h2 | ⟨h2e, h2r⟩
          · exact Or.inl (lt_of_eq_of_lt h1e h2)
          · exact Or.inr ⟨h1e.trans h2e, ih ys zs h1r h2r⟩

instance strLe_isTotal : IsTotal String fun a b => strLe a b = true :=
  ⟨fun a b => lexLe_total_aux a.data b.data⟩

instance strLe_isTrans : IsTrans String fun a b => strLe a b = true :=
  ⟨fun a b c => lexLe_trans_aux a.data b.data c.data⟩

theorem sortedSet_sorted (l : List String) :
    List.Sorted (fun a b => strLe a b = true) (sortedSet l) :=
  List.sorted_insertionSort _ _

theorem sortedSet_nodup (l : List String) : (sortedSet l).Nodup :=
  ((List.perm_insertionSort _ _).nodup_iff).mpr l.nodup_dedup

theorem sortedSet_mem (l : List String) (x : String) :
    x ∈ sortedSet l ↔ x ∈ l := by
  rw [sortedSet, (List.perm_insertionSort _ _).mem_iff, List.mem_dedup]

theorem mem_catNames (items : List (String × String)) (c n : String) :
    n ∈ sortedSet ((items.filter fun it => it.2 = c).map Prod.fst) ↔
      (n, c) ∈ items := by
  rw [sortedSet_mem]
  simp only [List.mem_map, List.mem_filter, decide_eq_true_eq]
  constructor
  · rintro ⟨⟨a, b⟩, ⟨hmem, hb⟩, ha⟩
    simp only at ha hb
    subst ha; subst hb; exact hmem
  · intro hmem
    exact ⟨(n, c), ⟨hmem, rfl⟩, rfl⟩

/-! Facts about the region display names and the region read. -/

theorem displayName_valid (t : String) (h : t ∈ REGIONS.map Prod.snd) :
    pyStrip t = t ∧ t ≠ "" ∧ t ∈ validRegionNames := by
  simp only [REGIONS, List.map_cons, List.map_nil, List.mem_cons,
    List.not_mem_nil, or_false] at h
  rcases h with h | h | h | h | h | h <;> subst h <;>
    exact ⟨by decide, by decide, by decide⟩

theorem get_current_region_update (p : Page) (t : String) (ht : pyStrip t = t)
    (hne : t ≠ "") (hmem : t ∈ validRegionNames) :
    get_current_region { p with spanText := some t } =
      if p.getRegionRaises then "Unknown" else t := by
  by_cases hr : p.getRegionRaises
  · simp [get_current_region, hr]
  · simp [get_current_region, spanRead, hr, ht, hne, hmem]

/-- C1: select_region reports either the requested display name or the
previously detected region, never a third value: the already-selected
branch returns the target without acting; a missing dropdown, a missing
option or an exception at any step of the sequence ends with the dropdown
closed and the previously read region (or, when the exception follows the
successful option click, the freshly selected target) reported, and no
selection failure escapes as an error — the function is total by
construction, mirroring its catch-all handler. -/
theorem select_region_reports_target_or_previous (p : Page) (target : String)
    (h : target ∈ REGIONS.map Prod.snd) :
    (select_region p target).1 = target ∨
      (select_region p target).1 = get_current_region p := by
  obtain ⟨ht, hne, hmem⟩ := displayName_valid target h
  unfold select_region
  split_ifs with h1 h2 h3 h4 h5 h6
  · exact Or.inl rfl
  · exact Or.inr rfl
  · exact Or.inr rfl
  · exact Or.inr rfl
  · by_cases hr : p.getRegionRaises
    · refine Or.inr ?_
      show get_current_region { p with spanText := some target } = get_current_region p
      simp [get_current_region, hr]
    · refine Or.inl ?_
      show get_current_region { p with spanText := some target } = target
      rw [get_current_region_update p target ht hne hmem]
      simp [hr]
  · exact Or.inl rfl
  · exact Or.inr rfl

/-- Witness for C1 at a concrete page and target. -/
theorem select_region_reports_target_or_previous_witness :
    (select_region pageW "United States").1 = "United States" ∨
      (select_region pageW "United States").1 = get_current_region pageW :=
  select_region_reports_target_or_previous pageW "United States" (by decide)

/-! Equivalence of the category resolution with its specification
reading. -/

theorem ancestorWalk_eq_findSome (dom : Dom) :
    ∀ (fuel : Nat) (el : Element),
      ancestorWalk dom el fuel = (ancestors dom el fuel).findSome? levelCategory := by
  intro fuel
  induction fuel with
  | zero => intro el; rfl
  | succ n ih =>
    intro el
    cases hg : getParent dom el with
    | none => simp [ancestorWalk, ancestors, hg]
    | some p =>
      simp only [ancestorWalk, ancestors, hg, List.findSome?_cons]
      cases hh : headerCategory p with
      | some c => simp [levelCategory, hh]
      | none =>
        cases hc : classCategory p.className with
        | some c => simp [levelCategory, hh, hc]
        | none => simp [levelCategory, hh, hc, ih p]

theorem siblingWalk_eq_findSome (dom : Dom) :
    ∀ (fuel : Nat) (el : Element),
      siblingWalk dom (getParent dom el) fuel =
        (ancestors dom el fuel).findSome? prevSibCategory := by
  intro fuel
  induction fuel with
  | zero => intro el; cases getParent dom el <;> rfl
  | succ n ih =>
    intro el
    cases hg : getParent dom el with
    | none => simp [siblingWalk, ancestors, hg]
    | some p =>
      simp only [siblingWalk, ancestors, hg, List.findSome?_cons]
      cases ht : p.prevSiblingText with
      | none => simp [prevSibCategory, ht, ih p]
      | some t =>
        by_cases hl : pyStrip t ∈ labels
        · simp [prevSibCategory, ht, hl]
        · simp [prevSibCategory, ht, hl, ih p]

/-- C3: for every document and logo image element, the category the
extraction script resolves equals the category described by the
specification: first category (header first, then class substrings in the
order free, sub, rent, buy) over the first 15 ancestors, else the first
exact label among the previous siblings of the first 5 ancestors. -/
theorem resolveCategory_eq_spec (dom : Dom) (img : Element) :
    resolveCategory dom img = resolveCategorySpec dom img := by
  unfold resolveCategory resolveCategorySpec
  rw [ancestorWalk_eq_findSome dom 15 img, siblingWalk_eq_findSome dom 5 img]

/-- C5: with zero service-logo images the extraction returns two empty
sets — a valid result, not an error — and the platform_count computed from
it is 0. -/
theorem extract_platforms_nil (dom : Dom) :
    extract_platforms dom [] = { subscription := [], free := [] } ∧
    platform_count (extract_platforms dom []) = 0 :=
  ⟨rfl, rfl⟩

/-- C6: both output lists of every extraction pass are sorted ascending in
the lexicographic code-point order (the order Python sorted uses on
strings) and contain no duplicate names. -/
theorem extract_platforms_sorted_nodup (dom : Dom) (logos : List (String × Element)) :
    List.Sorted (fun a b => strLe a b = true) (extract_platforms dom logos).subscription ∧
    (extract_platforms dom logos).subscription.Nodup ∧
    List.Sorted (fun a b => strLe a b = true) (extract_platforms dom logos).free ∧
    (extract_platforms dom logos).free.Nodup :=
  ⟨sortedSet_sorted _, sortedSet_nodup _, sortedSet_sorted _, sortedSet_nodup _⟩

/-- C7: a name is in the subscription output exactly when some candidate
resolved to category Sub carries it, and in the free output exactly when
some candidate resolved to category Free carries it; hence candidates
resolved to Rent or Buy (or Unknown) contribute to neither set. -/
theorem extract_platforms_mem_iff (dom : Dom) (logos : List (String × Element))
    (n : String) :
    (n ∈ (extract_platforms dom logos).subscription ↔
      (n, "Sub") ∈ platforms_data dom logos) ∧
    (n ∈ (extract_platforms dom logos).free ↔
      (n, "Free") ∈ platforms_data dom logos) :=
  ⟨mem_catNames _ _ _, mem_catNames _ _ _⟩

/-- C2 counterexample: a page carrying the same platform name once under a
Sub header and once under a Free header makes a single extraction pass
place that name in both output sets. -/
theorem extract_both_sets_cex :
    "Netflix" ∈ (extract_platforms cexDom cexLogos).subscription ∧
    "Netflix" ∈ (extract_platforms cexDom cexLogos).free :=
  ⟨by decide, by decide⟩

/-- C2 amended: a single extraction pass places a name in both sets only
when the input carries that name with category Sub on one candidate and
category Free on another; when no name occurs with both categories the two
sets are disjoint. -/
theorem classifyPlatforms_disjoint_of_no_conflict (items : List (String × String))
    (h : ∀ q ∈ items, ∀ q2 ∈ items, ¬(q.1 = q2.1 ∧ q.2 = "Sub" ∧ q2.2 = "Free")) :
    ∀ n ∈ (classifyPlatforms items).subscription,
      n ∉ (classifyPlatforms items).free := by
  intro n hs hf
  have h1 : (n, "Sub") ∈ items := (mem_catNames items "Sub" n).mp hs
  have h2 : (n, "Free") ∈ items := (mem_catNames items "Free" n).mp hf
  exact h (n, "Sub") h1 (n, "Free") h2 ⟨rfl, rfl, rfl⟩

/-- Witness for the amended C2 at a concrete conflict-free input. -/
theorem classifyPlatforms_disjoint_witness :
    "Netflix" ∉ (classifyPlatforms [("Netflix", "Sub"), ("Tubi", "Free")]).free :=
  classifyPlatforms_disjoint_of_no_conflict _ (by decide) "Netflix" (by decide)

/-! Orchestrator theorems. -/

/-- C4 counterexample: an exception raised by new_context — a call made
before the try block begins — escapes scrape_reelgood instead of being
converted to an ErrorResult, and the function itself closes no browser on
that path. -/
theorem scrape_exception_escapes_cex :
    scrape_reelgood escWorld "u" none = (Except.error "boom", false) := rfl

theorem scrapeRegionsLoop_fails (w : WorldAll) (i : Nat)
    (hx : w.extractFail = some i) :
    ∀ (rs : List (String × String)) (p : Page) (j : Nat),
      j ≤ i → i < j + rs.length → scrapeRegionsLoop w p j rs = none := by
  intro rs
  induction rs with
  | nil =>
    intro p j hj hlt
    simp only [List.length_nil, Nat.add_zero] at hlt
    omega
  | cons hd tl ih =>
    intro p j hj hlt
    obtain ⟨code, name⟩ := hd
    by_cases hij : i = j
    · subst hij
      simp [scrapeRegionsLoop, hx]
    · have hr := ih ((select_region p name).2) (j + 1) (by omega)
        (by simp only [List.length_cons] at hlt; omega)
      simp [scrapeRegionsLoop, hx, hij, hr]

/-- C4 amended: every exception raised inside the try block of a scrape
invocation — from navigation onward, including the per-region extraction
calls of the all-regions loop and a failing success-path close — is caught
and converted to the ErrorResult with message "Failed to scrape URL:"
followed by the exception detail, with the browser closed, provided the
close inside the handler does not itself raise; exceptions raised by the
browser/context/page setup calls before the try block (and a raising
handler close) propagate to the caller. -/
theorem scrape_try_exceptions_to_errorResult :
    (∀ (w : World) (url : String) (region : Option String) (n : Nat),
      w.failAt = some n → 4 ≤ n → n ≤ 11 → w.handlerCloseRaises = false →
      scrape_reelgood w url region =
        (Except.ok (ScrapeRet.errorResult ("Failed to scrape URL: " ++ w.failMsg)), true)) ∧
    (∀ (w : WorldAll) (url : String) (n : Nat),
      w.failAt = some n → 4 ≤ n → n ≤ 10 → w.handlerCloseRaises = false →
      scrape_all_regions w url =
        (Except.ok (AllRet.errorResult ("Failed to scrape URL: " ++ w.failMsg)), true)) ∧
    (∀ (w : WorldAll) (url : String) (i : Nat),
      w.failAt = none → w.extractFail = some i → i < 5 → w.handlerCloseRaises = false →
      scrape_all_regions w url =
        (Except.ok (AllRet.errorResult ("Failed to scrape URL: " ++ w.failMsg)), true)) := by
  refine ⟨?_, ?_, ?_⟩
  · intro w url region n hfa h4 h11 hcl
    unfold scrape_reelgood scrapeWith handlerOne
    interval_cases n <;> simp [hfa, hcl]
  · intro w url n hfa h4 h10 hcl
    unfold scrape_all_regions handlerAll
    rcases hloop : scrapeRegionsLoop w w.page 0 regions_to_scrape with _ | results <;>
      interval_cases n <;> simp [hfa, hcl, hloop]
  · intro w url i hfa hx hi hcl
    have hloop := scrapeRegionsLoop_fails w i hx regions_to_scrape w.page 0
      (by omega) (by rw [show regions_to_scrape.length = 5 from by decide]; omega)
    unfold scrape_all_regions handlerAll
    simp [hfa, hcl, hloop]

/-- Witness for the amended C4 at concrete worlds with a failure inside
the try block. -/
theorem scrape_try_exceptions_witness :
    scrape_reelgood tryWorld "u" none =
      (Except.ok (ScrapeRet.errorResult ("Failed to scrape URL: " ++ "boom")), true) ∧
    scrape_all_regions allWorldFail "u" =
      (Except.ok (AllRet.errorResult ("Failed to scrape URL: " ++ "boom")), true) ∧
    scrape_all_regions allWorldX "u" =
      (Except.ok (AllRet.errorResult ("Failed to scrape URL: " ++ "boom")), true) :=
  ⟨scrape_try_exceptions_to_errorResult.1 tryWorld "u" none 5 rfl (by omega) (by omega) rfl,
   scrape_try_exceptions_to_errorResult.2.1 allWorldFail "u" 5 rfl (by omega) (by omega) rfl,
   scrape_try_exceptions_to_errorResult.2.2 allWorldX "u" 2 rfl rfl (by omega) rfl⟩

theorem scrapeRegionsLoop_keys (w : WorldAll) :
    ∀ (rs : List (String × String)) (p : Page) (i : Nat)
      (l : List (String × RegionResult)),
      scrapeRegionsLoop w p i rs = some l → l.map Prod.fst = rs.map Prod.fst := by
  intro rs
  induction rs with
  | nil =>
    intro p i l h
    simp only [scrapeRegionsLoop, Option.some.injEq] at h
    subst h; rfl
  | cons hd tl ih =>
    intro p i l h
    obtain ⟨code, name⟩ := hd
    simp only [scrapeRegionsLoop] at h
    split at h
    · exact absurd h (by simp)
    · split at h
      · rename_i tail heq
        simp only [Option.some.injEq] at h
        subst h
        simp only [List.map_cons]
        rw [ih _ _ _ heq]
      · exact absurd h (by simp)

/-- C8: whenever scrape_all_regions succeeds, its regions mapping holds
exactly one RegionResult per non-"all" entry of REGIONS, keyed by the
region codes of the table and accumulated in table order, for any input
URL. -/
theorem scrape_all_regions_keys (w : WorldAll) (url t u : String)
    (res : List (String × RegionResult)) (b : Bool)
    (h : scrape_all_regions w url = (Except.ok (AllRet.success t u res), b)) :
    res.map Prod.fst = regions_to_scrape.map Prod.fst ∧
    regions_to_scrape.map Prod.fst = ["us", "uk", "ca", "au", "nz"] := by
  refine ⟨?_, by decide⟩
  unfold scrape_all_regions at h
  split at h
  · simp at h
  · split at h
    · simp at h
    · split at h
      · unfold handlerAll at h
        split at h <;> simp at h
      · split at h
        · unfold handlerAll at h
          split at h <;> simp at h
        · rename_i results heq
          split at h
          · unfold handlerAll at h
            split at h <;> simp at h
          · simp only [Prod.mk.injEq, Except.ok.injEq, AllRet.success.injEq] at h
            obtain ⟨⟨_, _, hres⟩, _⟩ := h
            subst hres
            exact scrapeRegionsLoop_keys w regions_to_scrape w.page 0 results heq

/-- Witness for C8 at a concrete fully successful world. -/
theorem scrape_all_regions_keys_witness :
    scrape_all_regions allWorldOK "u" =
      (Except.ok (AllRet.success "Title" "u" allResultsOK), true) ∧
    allResultsOK.map Prod.fst = regions_to_scrape.map Prod.fst :=
  ⟨rfl, (scrape_all_regions_keys allWorldOK "u" "Title" "u" allResultsOK true rfl).1⟩

/-- C9: the /scrape route answers HTTP 400 with the error body
"Please enter a URL" when the trimmed url field is missing or empty, and
HTTP 400 with the error body "Please enter a valid Reelgood URL" when the
trimmed url does not contain the substring "reelgood.com"; in both cases
no scraping is invoked. -/
theorem scrape_route_validation (body : Option String) (w : WorldAll) :
    (pyStrip (body.getD "") = "" →
      scrape body w = (400, RespBody.errBody "Please enter a URL", false)) ∧
    (pyStrip (body.getD "") ≠ "" →
      strContainsSub (pyStrip (body.getD "")) "reelgood.com" = false →
      scrape body w = (400, RespBody.errBody "Please enter a valid Reelgood URL", false)) := by
  constructor
  · intro h
    simp [scrape, h]
  · intro h1 h2
    simp [scrape, h1, h2]

/-- Witness for C9 at a missing url field and at a non-Reelgood url. -/
theorem scrape_route_validation_witness :
    scrape none allWorldOK = (400, RespBody.errBody "Please enter a URL", false) ∧
    scrape (some "http://example.com") allWorldOK =
      (400, RespBody.errBody "Please enter a valid Reelgood URL", false) :=
  ⟨(scrape_route_validation none allWorldOK).1 (by decide),
   (scrape_route_validation (some "http://example.com") allWorldOK).2
     (by decide) (by decide)⟩

theorem lookup_none_of_not_key (rcode : String)
    (h : rcode ∉ REGIONS.map Prod.fst) :
    List.lookup rcode REGIONS = none := by
  simp only [REGIONS, List.map_cons, List.map_nil, List.mem_cons,
    List.not_mem_nil, or_false, not_or] at h
  obtain ⟨h1, h2, h3, h4, h5, h6⟩ := h
  simp [List.lookup, REGIONS, beq_eq_false_iff_ne.mpr h1, beq_eq_false_iff_ne.mpr h2,
    beq_eq_false_iff_ne.mpr h3, beq_eq_false_iff_ne.mpr h4,
    beq_eq_false_iff_ne.mpr h5, beq_eq_false_iff_ne.mpr h6]

/-- C10: calling scrape_reelgood with a region code that is not a key of
REGIONS skips region selection entirely and behaves exactly as a call with
no region; the unknown code never surfaces as an error from the
scraper. -/
theorem scrape_reelgood_unknown_region (w : World) (url rcode : String)
    (h : rcode ∉ REGIONS.map Prod.fst) :
    scrape_reelgood w url (some rcode) = scrape_reelgood w url none := by
  unfold scrape_reelgood
  congr 1
  simp [pageAfterSelect, lookup_none_of_not_key rcode h]

/-- Witness for C10 at the unknown region code zz. -/
theorem scrape_reelgood_unknown_region_witness :
    scrape_reelgood escWorld "u" (some "zz") = scrape_reelgood escWorld "u" none :=
  scrape_reelgood_unknown_region escWorld "u" "zz" (by decide)

end RG
